import Mathlib

/-!
Verification of the device-ingestion pipeline of an IoT environmental
monitoring server (one Python source file, `server.py`).  The definitions
below are a shallow embedding of the ingestion thread `read_arduino`, the
shared `current_data` snapshot, the database helpers `save_reading` and
`save_alert`, and the history query `get_history`.

Modelling conventions:
* JSON numbers are rationals (the source only compares them, never does
  float arithmetic, so the ordered field ℚ is a faithful abstraction).
* The two database tables become in-memory lists of rows; a successful
  `INSERT` is an append at the end of the list.
* The current wall-clock instant is passed in as an abstract string `now`
  (the source formats it once for the snapshot and lets SQLite stamp the
  row; both stamps denote the ingestion instant).
* The alert message text built with an f-string around a numeric value is
  modelled by the inductive `AlertMsg`, which records which rule fired and
  the offending value, avoiding any dependence on float formatting.
* Serial input during the liveness probe is a list of per-attempt results:
  `none` means no bytes were waiting at that poll, `some l` means a line
  was read and stripped to `l` (possibly empty).
-/

namespace SolarServer

/-- Tracker object as carried in a JSON line or in the snapshot: every
field is optional, matching the dynamic dictionary in the source where
each read goes through `.get` with a default (source lines 344-348). -/
structure TrackerObj where
  angle : Option ℚ
  ldr_left : Option ℚ
  ldr_right : Option ℚ
  diff : Option ℚ
  action : Option String
  status : Option String
deriving DecidableEq, Repr

/-- Shallow embedding of the mutable `current_data` dictionary
(source lines 180-197). -/
structure Snapshot where
  temperature : ℚ
  humidity : ℚ
  dust : ℚ
  pressure : ℚ
  time : String
  status : String
  alert : String
  connected : Bool
  tracker : TrackerObj
deriving DecidableEq, Repr

/-- Initial value of `current_data` (source lines 180-197). -/
def current_data_init : Snapshot :=
  { temperature := 0, humidity := 0, dust := 0, pressure := 0
  , time := "--:--:--", status := "Starting...", alert := ""
  , connected := false
  , tracker :=
      { angle := some 90, ldr_left := some 0, ldr_right := some 0
      , diff := some 0, action := some "CENTER", status := some "INITIALIZING" } }

/-- Parsed JSON object of one wire line: each recognised key is optional.
Only presence is tested for `status` and `msg`; the values of `error`,
`temp`, `hum`, `dust`, `pressure` and `tracker` are read when present. -/
structure JsonObj where
  status : Option String
  msg : Option String
  error : Option String
  temp : Option ℚ
  hum : Option ℚ
  dust : Option ℚ
  pressure : Option ℚ
  tracker : Option TrackerObj
deriving DecidableEq, Repr

/-- Raw line handed to the read loop, after `readline().strip()`:
empty, not syntactically valid JSON, or a parsed JSON object. -/
inductive LineInput
  | empty
  | invalid
  | valid (data : JsonObj)
deriving DecidableEq, Repr

/-- Message of a persisted alert row: which threshold rule fired and the
measured value interpolated into the message (source lines 323-332). -/
inductive AlertMsg
  | highTemperature (v : ℚ)
  | highHumidity (v : ℚ)
  | highDust (v : ℚ)
  | abnormalPressure (v : ℚ)
deriving DecidableEq, Repr

/-- Row of the `alerts` table written by `save_alert`
(source lines 160-174). -/
structure AlertRow where
  message : AlertMsg
  level : String
deriving DecidableEq, Repr

/-- Row of the `readings` table written by `save_reading`
(source lines 138-158); `timestamp` is the store-assigned ingestion
instant. -/
structure ReadingRow where
  timestamp : String
  temperature : ℚ
  humidity : ℚ
  dust_density : ℚ
  air_pressure : ℚ
  tracker_angle : ℚ
  ldr_left : ℚ
  ldr_right : ℚ
  light_diff : ℚ
  tracker_status : String
  status : String
deriving DecidableEq, Repr

/-- Joint state touched by one read-loop iteration: the live snapshot and
the two database tables. -/
structure IngestState where
  snap : Snapshot
  readings : List ReadingRow
  alerts : List AlertRow
deriving DecidableEq, Repr

/-- State at process start: initial snapshot, empty tables. -/
def ingest_init : IngestState :=
  { snap := current_data_init, readings := [], alerts := [] }

/-- Alert evaluation on a validated reading (source lines 320-334):
first matching rule wins; the pair is the snapshot alert text and the
alert row to persist, if any. -/
def evaluate (t h d p : ℚ) : String × Option AlertRow :=
  if 40 < t then
    ("🔥 High temperature!", some { message := .highTemperature t, level := "WARNING" })
  else if 80 < h then
    ("💧 High humidity!", some { message := .highHumidity h, level := "WARNING" })
  else if 150 < d then
    ("🌫️ Poor air quality!", some { message := .highDust d, level := "WARNING" })
  else if 35 < p ∨ p < 5 then
    ("⚠️ Abnormal air pressure!", some { message := .abnormalPressure p, level := "WARNING" })
  else
    ("✅ All systems normal", none)

/-- One iteration of the Connected read loop on one line
(source lines 288-356): control messages and device errors short-circuit;
a line with both `temp` and `hum` updates the snapshot field by field,
evaluates the alert, and appends the reading row (and the alert row when
one was produced) to the tables. -/
def processLine (now : String) (st : IngestState) (l : LineInput) : IngestState :=
  match l with
  | .empty => st
  | .invalid => st
  | .valid data =>
    if data.status.isSome && data.msg.isSome then st
    else
      match data.error with
      | some e => { st with snap := { st.snap with alert := e } }
      | none =>
        match data.temp, data.hum with
        | some t, some h =>
          let d := data.dust.getD 0
          let p := data.pressure.getD 0
          let snap1 : Snapshot :=
            { st.snap with
                temperature := t, humidity := h, dust := d, pressure := p,
                time := now, status := "Active ✓", connected := true }
          let snap2 : Snapshot :=
            match data.tracker with
            | some tr => { snap1 with tracker := tr }
            | none => snap1
          let ev := evaluate t h d p
          let tr := snap2.tracker
          let row : ReadingRow :=
            { timestamp := now, temperature := t, humidity := h
            , dust_density := d, air_pressure := p
            , tracker_angle := tr.angle.getD 90
            , ldr_left := tr.ldr_left.getD 0
            , ldr_right := tr.ldr_right.getD 0
            , light_diff := tr.diff.getD 0
            , tracker_status := tr.status.getD "UNKNOWN"
            , status := "OK" }
          { snap := { snap2 with alert := ev.1 },
            readings := st.readings ++ [row],
            alerts := st.alerts ++ ev.2.toList }
        | _, _ => st

/-- Classification of a line by the read-loop control flow, in the order
the source tests the keys (source lines 291-354): empty and unparseable
lines are skipped; a `status`+`msg` pair is a control message; an `error`
key is a device error; `temp` with `hum` is a reading; anything else is
skipped. -/
inductive ParseClass
  | ignore
  | controlMessage (m : String)
  | errorMessage (e : String)
  | reading (data : JsonObj)
deriving DecidableEq, Repr

/-- Classifier read off the same tests `processLine` performs. -/
def classify : LineInput → ParseClass
  | .empty => .ignore
  | .invalid => .ignore
  | .valid data =>
    if data.status.isSome && data.msg.isSome then .controlMessage (data.msg.getD "")
    else
      match data.error with
      | some e => .errorMessage e
      | none =>
        match data.temp, data.hum with
        | some _, some _ => .reading data
        | _, _ => .ignore

/-- Control position of the ingestion thread: rediscovering the port, or
inside the Connected read loop. -/
inductive Phase
  | discovering
  | reading
deriving DecidableEq, Repr

/-- Link-level state: ingestion state plus whether the serial handle is
open and which loop the thread is in. -/
structure LinkState where
  st : IngestState
  serOpen : Bool
  phase : Phase
deriving DecidableEq, Repr

/-- Link state at thread start. -/
def link_init : LinkState :=
  { st := ingest_init, serOpen := false, phase := .discovering }

/-- One read-loop iteration at link level: processing a line never closes
the handle and never leaves the loop (source lines 288-356 contain no
close and no break on these paths). -/
def read_loop_step (now : String) (ls : LinkState) (l : LineInput) : LinkState :=
  { ls with st := processLine now ls.st l }

/-- Liveness poll (source lines 256-268): up to `fuel` one-second
attempts; an attempt that reads a nonempty line succeeds immediately, an
attempt with no bytes or an empty line is consumed and the loop retries. -/
def probeLoop : Nat → List (Option String) → Option String
  | 0, _ => none
  | _ + 1, [] => none
  | n + 1, i :: rest =>
    match i with
    | some l => if l = "" then probeLoop n rest else some l
    | none => probeLoop n rest

/-- Probing step (source lines 251-283): after the settle delay the loop
polls at most 10 times; a nonempty line confirms liveness and enters the
read loop with the connectivity flag set, while exhaustion closes the
handle, clears the flag, reports no data and returns to discovery. -/
def probe_step (inputs : List (Option String)) (ls : LinkState) : LinkState :=
  match probeLoop 10 inputs with
  | some _ =>
    { ls with
      st := { ls.st with snap :=
        { ls.st.snap with connected := true, status := "Connected ✓" } },
      serOpen := true, phase := .reading }
  | none =>
    { ls with
      st := { ls.st with snap :=
        { ls.st.snap with connected := false, status := "❌ No data - Upload sketch!" } },
      serOpen := false, phase := .discovering }

/-- Handler when the locator finds no port (source lines 237-246): flag
cleared, status text set, retry discovery after the backoff. -/
def no_port_step (ls : LinkState) : LinkState :=
  { ls with
    st := { ls.st with snap :=
      { ls.st.snap with
        connected := false,
        status := "❌ Arduino NOT connected - Check USB!" } },
    phase := .discovering }

/-- Handler of an exception inside the Connected read loop
(source lines 358-362): flag cleared, status set, break out to rediscovery;
the source does not close the serial handle on this path. -/
def read_error_step (ls : LinkState) : LinkState :=
  { ls with
    st := { ls.st with snap :=
      { ls.st.snap with connected := false, status := "Connection lost" } },
    phase := .discovering }

/-- Handler of a serial exception around open or probe
(source lines 364-369). -/
def serial_exception_step (ls : LinkState) : LinkState :=
  { ls with
    st := { ls.st with snap :=
      { ls.st.snap with connected := false, status := "Serial error" } },
    phase := .discovering }

/-- Handler of the outermost exception of the supervisor loop
(source lines 371-375). -/
def outer_exception_step (ls : LinkState) : LinkState :=
  { ls with
    st := { ls.st with snap :=
      { ls.st.snap with connected := false, status := "Disconnected" } },
    phase := .discovering }

/-- Individual snapshot mutations performed by the reading branch, in
source order (lines 309-318 and 336): seven unconditional field writes,
the conditional tracker write, then the alert-text write.  Each list
element is one Python dictionary-item assignment, which is the unit of
atomicity a concurrent reader can observe between. -/
def publishWrites (now : String) (data : JsonObj) (t h : ℚ) :
    List (Snapshot → Snapshot) :=
  let trackerWrites : List (Snapshot → Snapshot) :=
    match data.tracker with
    | some tr => [fun s => { s with tracker := tr }]
    | none => []
  let alertWrite : List (Snapshot → Snapshot) :=
    [fun s => { s with alert := (evaluate t h (data.dust.getD 0) (data.pressure.getD 0)).1 }]
  [fun s => { s with temperature := t },
   fun s => { s with humidity := h },
   fun s => { s with dust := data.dust.getD 0 },
   fun s => { s with pressure := data.pressure.getD 0 },
   fun s => { s with time := now },
   fun s => { s with status := "Active ✓" },
   fun s => { s with connected := true }] ++ trackerWrites ++ alertWrite

/-- Snapshot values a concurrent reader can observe while the write
sequence runs: the state before any write and after each write. -/
def observableStates (pre : Snapshot) (ws : List (Snapshot → Snapshot)) :
    List Snapshot :=
  List.scanl (fun s f => f s) pre ws

/-- Row of the `readings` table as selected by the history query. -/
structure DbReading where
  timestamp : Int
  temperature : ℚ
  humidity : ℚ
  dust_density : ℚ
  air_pressure : ℚ
  tracker_angle : ℚ
deriving DecidableEq, Repr

/-- Insertion into a list kept in descending timestamp order. -/
def insertDesc (r : DbReading) : List DbReading → List DbReading
  | [] => [r]
  | x :: xs => if x.timestamp ≤ r.timestamp then r :: x :: xs else x :: insertDesc r xs

/-- ORDER BY timestamp DESC, as an insertion sort. -/
def sortDesc : List DbReading → List DbReading
  | [] => []
  | x :: xs => insertDesc x (sortDesc xs)

/-- History query (source lines 391-421): keep the rows whose timestamp is
strictly after `now` minus `hours` hours, newest first, at most 1000.
Timestamps are abstract seconds, so the SQLite cutoff
`datetime(now, minus hours)` is `now - 3600 * hours`. -/
def get_history (hours : Nat) (now : Int) (db : List DbReading) : List DbReading :=
  (sortDesc (db.filter (fun r => decide (now - 3600 * (hours : Int) < r.timestamp)))).take 1000

/-- Nonempty-data test of one poll attempt: bytes were waiting and the
stripped line was not empty. -/
def hasLine (i : Option String) : Bool :=
  match i with
  | some l => !(l == "")
  | none => false

/-- Input class named by claim C3: empty line, unparseable line, or valid
JSON missing the temperature or the humidity key. -/
def MissingRequired : LineInput → Prop
  | .empty => True
  | .invalid => True
  | .valid data => data.temp = none ∨ data.hum = none

/-- JSON object with every recognised key absent. -/
def emptyObj : JsonObj :=
  { status := none, msg := none, error := none, temp := none, hum := none,
    dust := none, pressure := none, tracker := none }

/-- Example line carrying only a control message. -/
def ctrlLine : JsonObj := { emptyObj with status := some "boot", msg := some "hello" }

/-- Example line carrying a control pair and an error key at once. -/
def ctrlErrLine : JsonObj :=
  { emptyObj with status := some "s", msg := some "m", error := some "E" }

/-- Example line carrying an error key next to a full reading. -/
def errTempLine : JsonObj :=
  { emptyObj with error := some "sensor failure", temp := some 21, hum := some 50 }

/-- Example line carrying only a temperature. -/
def tempOnlyLine : JsonObj := { emptyObj with temp := some 1 }

/-- Example minimal reading line. -/
def bareReading : JsonObj := { emptyObj with temp := some 1, hum := some 2 }

/-- Example reading line over the temperature threshold. -/
def hotLine : JsonObj := { emptyObj with temp := some 41, hum := some 50 }

/-- Example reading line with a partial tracker object. -/
def trackerLine : JsonObj :=
  { emptyObj with
    temp := some 20, hum := some 50,
    tracker := some
      { angle := some 45, ldr_left := none, ldr_right := some 3,
        diff := none, action := none, status := none } }

/-- Example reading used to build a connected state. -/
def sampleReading : JsonObj := { emptyObj with temp := some 25, hum := some 60 }

/-- Link state inside the Connected read loop after one reading. -/
def connectedState : LinkState :=
  { st := processLine "12:00:00" ingest_init (.valid sampleReading),
    serOpen := true, phase := .reading }

/-- First reading line of the interleaving example. -/
def lineA : JsonObj := { emptyObj with temp := some 10, hum := some 20 }

/-- Second reading line of the interleaving example. -/
def lineB : JsonObj := { emptyObj with temp := some 30, hum := some 40 }

/-- State after fully publishing `lineA`. -/
def preState : IngestState := processLine "00:00:01" ingest_init (.valid lineA)

/-- State after fully publishing `lineB` on top of `preState`. -/
def postState : IngestState := processLine "00:00:02" preState (.valid lineB)

/-- Example stored row used by the history-query witness. -/
def pastRow : DbReading :=
  { timestamp := 5, temperature := 20, humidity := 50, dust_density := 0,
    air_pressure := 10, tracker_angle := 90 }

/-! Theorems. -/

/-- C9: a history query with a zero-duration window (hours = 0) returns
the empty sequence whenever every stored timestamp is at or before the
query time, because the cutoff keeps only rows strictly after `now`. -/
theorem C9_zero_window_empty (now : Int) (db : List DbReading)
    (h : ∀ r ∈ db, r.timestamp ≤ now) :
    get_history 0 now db = [] := by
  unfold get_history
  have hf : db.filter (fun r => decide (now - 3600 * ((0 : Nat) : Int) < r.timestamp)) = [] := by
    rw [List.filter_eq_nil_iff]
    intro r hr
    have hle := h r hr
    simp only [Nat.cast_zero, mul_zero, sub_zero, decide_eq_true_eq]
    omega
  rw [hf]
  rfl

/-- Witness of C9 at a concrete database and query time. -/
theorem C9_zero_window_empty_witness :
    (∀ r ∈ [pastRow], r.timestamp ≤ (10 : Int)) ∧ get_history 0 10 [pastRow] = [] :=
  ⟨by decide, C9_zero_window_empty 10 [pastRow] (by decide)⟩

/-- C8 counterexample: after one published reading, losing the port keeps
temperature 25 and the formatted time in the snapshot, while the startup
defaults are 0 and the placeholder time, so the snapshot is not reset to
its initial defaults on full disconnection. -/
theorem C8_counterexample :
    (no_port_step connectedState).st.snap.temperature = 25 ∧
    current_data_init.temperature = 0 ∧
    (no_port_step connectedState).st.snap.time = "12:00:00" ∧
    current_data_init.time = "--:--:--" := by decide

/-- C8 (amended): every disconnection handler rewrites only the
connectivity flag and the status line; all reading fields, time, alert,
tracker sub-state and both tables keep their previous values, so the
snapshot returns to its startup defaults only at process start. -/
theorem C8_disconnect_keeps_other_fields (ls : LinkState) :
    (no_port_step ls).st =
      { ls.st with snap := { ls.st.snap with
          connected := false, status := "❌ Arduino NOT connected - Check USB!" } } ∧
    (read_error_step ls).st =
      { ls.st with snap := { ls.st.snap with
          connected := false, status := "Connection lost" } } ∧
    (serial_exception_step ls).st =
      { ls.st with snap := { ls.st.snap with
          connected := false, status := "Serial error" } } ∧
    (outer_exception_step ls).st =
      { ls.st with snap := { ls.st.snap with
          connected := false, status := "Disconnected" } } ∧
    (probe_step [] ls).st =
      { ls.st with snap := { ls.st.snap with
          connected := false, status := "❌ No data - Upload sketch!" } } :=
  ⟨rfl, rfl, rfl, rfl, rfl⟩

/-- C6: on an exception inside the Connected read loop the handler clears
the connectivity flag, sets the status to Connection lost and restarts
from discovery without process restart, but the serial handle stays open:
the source has no close call on this path, unlike the claimed teardown. -/
theorem C6_read_error_no_close :
    (read_error_step connectedState).st.snap.connected = false ∧
    (read_error_step connectedState).st.snap.status = "Connection lost" ∧
    (read_error_step connectedState).phase = Phase.discovering ∧
    (read_error_step connectedState).serOpen = true :=
  ⟨rfl, rfl, rfl, rfl⟩

/-- C10: the line consumed by the liveness probe is discarded: whatever
the polled inputs hold, even a well-formed reading, probing never parses
them, never touches the two tables, and never changes the reading fields,
time, alert text or tracker of the snapshot; only the connectivity flag,
status line, handle and phase move. -/
theorem C10_probe_line_discarded (inputs : List (Option String)) (ls : LinkState) :
    (probe_step inputs ls).st.readings = ls.st.readings ∧
    (probe_step inputs ls).st.alerts = ls.st.alerts ∧
    (probe_step inputs ls).st.snap.temperature = ls.st.snap.temperature ∧
    (probe_step inputs ls).st.snap.humidity = ls.st.snap.humidity ∧
    (probe_step inputs ls).st.snap.dust = ls.st.snap.dust ∧
    (probe_step inputs ls).st.snap.pressure = ls.st.snap.pressure ∧
    (probe_step inputs ls).st.snap.time = ls.st.snap.time ∧
    (probe_step inputs ls).st.snap.alert = ls.st.snap.alert ∧
    (probe_step inputs ls).st.snap.tracker = ls.st.snap.tracker := by
  unfold probe_step
  cases probeLoop 10 inputs <;> simp

/-- C3 counterexample: a line with a status and msg pair and no temp key
is in the class of the claim but the read-loop control flow classifies it
as a control message, not Ignore. -/
theorem C3_counterexample :
    MissingRequired (.valid ctrlLine) ∧
    classify (.valid ctrlLine) = ParseClass.controlMessage "hello" ∧
    ParseClass.controlMessage "hello" ≠ ParseClass.ignore :=
  ⟨Or.inl rfl, rfl, by decide⟩

/-- C3 (amended): every line that is empty, unparseable, or valid JSON
missing temp or hum leaves the link (handle and loop) untouched, appends
no reading row, and leaves every reading field of the snapshot unchanged;
if the line moreover carries neither a status+msg pair nor an error key,
it is classified Ignore and the whole state is unchanged. -/
theorem C3_missing_fields_ignored (now : String) (ls : LinkState) (l : LineInput)
    (hm : MissingRequired l) :
    (read_loop_step now ls l).serOpen = ls.serOpen ∧
    (read_loop_step now ls l).phase = ls.phase ∧
    (read_loop_step now ls l).st.readings = ls.st.readings ∧
    (read_loop_step now ls l).st.snap.temperature = ls.st.snap.temperature ∧
    (read_loop_step now ls l).st.snap.humidity = ls.st.snap.humidity ∧
    (read_loop_step now ls l).st.snap.dust = ls.st.snap.dust ∧
    (read_loop_step now ls l).st.snap.pressure = ls.st.snap.pressure ∧
    (read_loop_step now ls l).st.snap.tracker = ls.st.snap.tracker ∧
    (∀ data, l = .valid data → (data.status.isSome && data.msg.isSome) = false →
      data.error = none → classify l = ParseClass.ignore ∧ read_loop_step now ls l = ls) := by
  cases l with
  | empty =>
    refine ⟨rfl, rfl, rfl, rfl, rfl, rfl, rfl, rfl, ?_⟩
    intro data hva
    cases hva
  | invalid =>
    refine ⟨rfl, rfl, rfl, rfl, rfl, rfl, rfl, rfl, ?_⟩
    intro data hva
    cases hva
  | valid data =>
    simp only [MissingRequired] at hm
    by_cases hcm : (data.status.isSome && data.msg.isSome) = true
    · have hstep : read_loop_step now ls (.valid data) = ls := by
        simp [read_loop_step, processLine, hcm]
      rw [hstep]
      refine ⟨rfl, rfl, rfl, rfl, rfl, rfl, rfl, rfl, ?_⟩
      intro d hd hfa herr2
      cases hd
      simp [hcm] at hfa
    · rw [Bool.not_eq_true] at hcm
      cases herr : data.error with
      | some e =>
        have hstep : read_loop_step now ls (.valid data) =
            { ls with st := { ls.st with snap := { ls.st.snap with alert := e } } } := by
          simp [read_loop_step, processLine, hcm, herr]
        rw [hstep]
        refine ⟨rfl, rfl, rfl, rfl, rfl, rfl, rfl, rfl, ?_⟩
        intro d hd hfa herr2
        cases hd
        rw [herr] at herr2
        cases herr2
      | none =>
        have hstep : read_loop_step now ls (.valid data) = ls := by
          rcases hm with hmt | hmh
          · simp [read_loop_step, processLine, hcm, herr, hmt]
          · cases htemp : data.temp with
            | none => simp [read_loop_step, processLine, hcm, herr, htemp]
            | some t0 => simp [read_loop_step, processLine, hcm, herr, htemp, hmh]
        have hcl : classify (.valid data) = ParseClass.ignore := by
          rcases hm with hmt | hmh
          · simp [classify, hcm, herr, hmt]
          · cases htemp : data.temp with
            | none => simp [classify, hcm, herr, htemp]
            | some t0 => simp [classify, hcm, herr, htemp, hmh]
        rw [hstep]
        exact ⟨rfl, rfl, rfl, rfl, rfl, rfl, rfl, rfl,
          fun d hd hfa herr2 => ⟨hcl, rfl⟩⟩

/-- Witness of C3 at a line that carries only a temperature. -/
theorem C3_missing_fields_ignored_witness :
    MissingRequired (.valid tempOnlyLine) ∧
    classify (.valid tempOnlyLine) = ParseClass.ignore ∧
    read_loop_step "12:00:00" link_init (.valid tempOnlyLine) = link_init := by
  have h := C3_missing_fields_ignored "12:00:00" link_init (.valid tempOnlyLine) (Or.inr rfl)
  have h2 := h.2.2.2.2.2.2.2.2 tempOnlyLine rfl (by decide) rfl
  exact ⟨Or.inr rfl, h2.1, h2.2⟩

/-- C4 counterexample: a line whose error key coexists with a status+msg
pair takes the control-message branch, so the error text never reaches
the snapshot alert field. -/
theorem C4_counterexample :
    ctrlErrLine.error = some "E" ∧
    processLine "12:00:00" ingest_init (.valid ctrlErrLine) = ingest_init ∧
    ingest_init.snap.alert ≠ "E" :=
  ⟨rfl, rfl, by decide⟩

/-- C4 (amended): a parsed line with an error key and no status+msg pair,
including lines that also carry temp and hum, writes the error text to
the snapshot alert field and changes nothing else: no reading row, no
alert row, every other snapshot field intact, handle and loop untouched. -/
theorem C4_error_field_drops_reading (now : String) (ls : LinkState)
    (data : JsonObj) (e : String)
    (hcm : (data.status.isSome && data.msg.isSome) = false)
    (herr : data.error = some e) :
    read_loop_step now ls (.valid data) =
      { ls with st := { ls.st with snap := { ls.st.snap with alert := e } } } := by
  simp [read_loop_step, processLine, hcm, herr]

/-- Witness of C4 at a line with an error key next to a full reading. -/
theorem C4_error_field_drops_reading_witness :
    ((errTempLine.status.isSome && errTempLine.msg.isSome) = false) ∧
    errTempLine.temp = some 21 ∧ errTempLine.hum = some 50 ∧
    read_loop_step "12:00:00" link_init (.valid errTempLine) =
      { link_init with st := { link_init.st with snap :=
          { link_init.st.snap with alert := "sensor failure" } } } :=
  ⟨by decide, rfl, rfl,
    C4_error_field_drops_reading "12:00:00" link_init errTempLine "sensor failure"
      (by decide) rfl⟩

/-- C5 counterexample: from the initial state a reading line with no
tracker object persists the startup tracker status INITIALIZING, not the
claimed default UNKNOWN, because the tracker columns are read off the
snapshot tracker rather than defaulted per line. -/
theorem C5_counterexample :
    bareReading.tracker = none ∧
    (processLine "12:00:00" ingest_init (.valid bareReading)).readings.map
      ReadingRow.tracker_status = ["INITIALIZING"] ∧
    "INITIALIZING" ≠ "UNKNOWN" := by decide

/-- C5 (amended): a parsed line with both temp and hum, no error key and
no status+msg pair appends exactly one reading row: dust and pressure
default to 0 per field, capture time is the ingestion timestamp and the
outcome tag is OK, while the tracker columns are read from the line
tracker object when one is present and otherwise from the snapshot current
tracker sub-state, with per-field defaults angle 90, sensors 0,
differential 0 and status UNKNOWN applied to whichever object is used. -/
theorem C5_reading_row_defaults (now : String) (st : IngestState)
    (data : JsonObj) (t h : ℚ)
    (hcm : (data.status.isSome && data.msg.isSome) = false)
    (herr : data.error = none)
    (ht : data.temp = some t) (hh : data.hum = some h) :
    (processLine now st (.valid data)).readings =
      st.readings ++
        [{ timestamp := now, temperature := t, humidity := h,
           dust_density := data.dust.getD 0, air_pressure := data.pressure.getD 0,
           tracker_angle := (data.tracker.getD st.snap.tracker).angle.getD 90,
           ldr_left := (data.tracker.getD st.snap.tracker).ldr_left.getD 0,
           ldr_right := (data.tracker.getD st.snap.tracker).ldr_right.getD 0,
           light_diff := (data.tracker.getD st.snap.tracker).diff.getD 0,
           tracker_status := (data.tracker.getD st.snap.tracker).status.getD "UNKNOWN",
           status := "OK" }] := by
  cases htr : data.tracker with
  | some tr => simp [processLine, hcm, herr, ht, hh, htr]
  | none => simp [processLine, hcm, herr, ht, hh, htr]

/-- Witness of C5 at a line with a partial tracker object. -/
theorem C5_reading_row_defaults_witness :
    (processLine "09:30:00" ingest_init (.valid trackerLine)).readings =
      [{ timestamp := "09:30:00", temperature := 20, humidity := 50,
         dust_density := 0, air_pressure := 0, tracker_angle := 45,
         ldr_left := 0, ldr_right := 3, light_diff := 0,
         tracker_status := "UNKNOWN", status := "OK" }] := by
  have h := C5_reading_row_defaults "09:30:00" ingest_init trackerLine 20 50
    (by decide) rfl rfl rfl
  rw [h]
  rfl

/-- C2: alert evaluation on a validated reading is total, deterministic
and first-match in the fixed order temperature, humidity, dust, pressure,
normal; the snapshot alert text and the appended row follow it, every
persisted row is WARNING-level, and the normal case persists nothing. -/
theorem C2_alert_rules (now : String) (st : IngestState) (data : JsonObj)
    (t h : ℚ)
    (hcm : (data.status.isSome && data.msg.isSome) = false)
    (herr : data.error = none)
    (ht : data.temp = some t) (hh : data.hum = some h) :
    (processLine now st (.valid data)).snap.alert =
      (evaluate t h (data.dust.getD 0) (data.pressure.getD 0)).1 ∧
    (processLine now st (.valid data)).alerts =
      st.alerts ++ (evaluate t h (data.dust.getD 0) (data.pressure.getD 0)).2.toList ∧
    (∀ d p : ℚ,
      (40 < t → evaluate t h d p =
        ("🔥 High temperature!",
          some { message := .highTemperature t, level := "WARNING" })) ∧
      (t ≤ 40 → 80 < h → evaluate t h d p =
        ("💧 High humidity!",
          some { message := .highHumidity h, level := "WARNING" })) ∧
      (t ≤ 40 → h ≤ 80 → 150 < d → evaluate t h d p =
        ("🌫️ Poor air quality!",
          some { message := .highDust d, level := "WARNING" })) ∧
      (t ≤ 40 → h ≤ 80 → d ≤ 150 → (35 < p ∨ p < 5) → evaluate t h d p =
        ("⚠️ Abnormal air pressure!",
          some { message := .abnormalPressure p, level := "WARNING" })) ∧
      (t ≤ 40 → h ≤ 80 → d ≤ 150 → p ≤ 35 → 5 ≤ p → evaluate t h d p =
        ("✅ All systems normal", none)) ∧
      (∀ a ∈ (evaluate t h d p).2, a.level = "WARNING")) := by
  refine ⟨?_, ?_, ?_⟩
  · cases htr : data.tracker with
    | some tr => simp [processLine, hcm, herr, ht, hh, htr]
    | none => simp [processLine, hcm, herr, ht, hh, htr]
  · cases htr : data.tracker with
    | some tr => simp [processLine, hcm, herr, ht, hh, htr]
    | none => simp [processLine, hcm, herr, ht, hh, htr]
  · intro d p
    refine ⟨?_, ?_, ?_, ?_, ?_, ?_⟩
    · intro h40
      rw [evaluate, if_pos h40]
    · intro h40 h80
      rw [evaluate, if_neg (not_lt.mpr h40), if_pos h80]
    · intro h40 h80 h150
      rw [evaluate, if_neg (not_lt.mpr h40), if_neg (not_lt.mpr h80), if_pos h150]
    · intro h40 h80 h150 hp
      rw [evaluate, if_neg (not_lt.mpr h40), if_neg (not_lt.mpr h80),
        if_neg (not_lt.mpr h150), if_pos hp]
    · intro h40 h80 h150 hp35 hp5
      rw [evaluate, if_neg (not_lt.mpr h40), if_neg (not_lt.mpr h80),
        if_neg (not_lt.mpr h150), if_neg ?_]
      push_neg
      exact ⟨hp35, hp5⟩
    · unfold evaluate
      split
      · intro a ha
        simp at ha
        rw [← ha]
      · split
        · intro a ha
          simp at ha
          rw [← ha]
        · split
          · intro a ha
            simp at ha
            rw [← ha]
          · split
            · intro a ha
              simp at ha
              rw [← ha]
            · intro a ha
              simp at ha

/-- Witness of C2 at a reading over the temperature threshold. -/
theorem C2_alert_rules_witness :
    (processLine "12:00:00" ingest_init (.valid hotLine)).snap.alert =
      "🔥 High temperature!" ∧
    (processLine "12:00:00" ingest_init (.valid hotLine)).alerts =
      [{ message := .highTemperature 41, level := "WARNING" }] := by
  have h := C2_alert_rules "12:00:00" ingest_init hotLine 41 50 (by decide) rfl rfl rfl
  constructor
  · rw [h.1]
    decide
  · rw [h.2.1]
    decide

/-- Bounded-attempt property of the poll loop: success with some line is
exactly one of the first `n` attempts reading a nonempty line. -/
theorem probeLoop_isSome_iff (n : Nat) (inputs : List (Option String)) :
    (probeLoop n inputs).isSome = (inputs.take n).any hasLine := by
  induction n generalizing inputs with
  | zero => simp [probeLoop]
  | succ n ih =>
    cases inputs with
    | nil => simp [probeLoop]
    | cons i rest =>
      cases i with
      | none => simp [probeLoop, hasLine, List.take_succ_cons, ih]
      | some l =>
        by_cases hl : l = ""
        · subst hl
          simp [probeLoop, hasLine, List.take_succ_cons, ih]
        · simp [probeLoop, hasLine, List.take_succ_cons, hl]

/-- Attempts beyond the fuel bound are never inspected. -/
theorem probeLoop_take (n : Nat) (inputs : List (Option String)) :
    probeLoop n (inputs.take n) = probeLoop n inputs := by
  induction n generalizing inputs with
  | zero => rfl
  | succ n ih =>
    cases inputs with
    | nil => rfl
    | cons i rest =>
      cases i with
      | none => simp [probeLoop, List.take_succ_cons, ih]
      | some l =>
        by_cases hl : l = "" <;> simp [probeLoop, List.take_succ_cons, hl, ih]

/-- C7: the probe inspects at most the first 10 poll attempts; the
connectivity flag becomes true exactly when one of those attempts reads a
nonempty line, in which case the status reads Connected and the read loop
is entered with the handle open; if all attempts pass without data the
handle is closed and the flag is false with the no-data status, back in
discovery — so the flag is never true before a nonempty line arrived. -/
theorem C7_probe_liveness (inputs : List (Option String)) (ls : LinkState) :
    probe_step inputs ls = probe_step (inputs.take 10) ls ∧
    ((probe_step inputs ls).st.snap.connected = true ↔
      (inputs.take 10).any hasLine = true) ∧
    ((inputs.take 10).any hasLine = true →
      probe_step inputs ls =
        { ls with
          st := { ls.st with snap :=
            { ls.st.snap with connected := true, status := "Connected ✓" } },
          serOpen := true, phase := .reading }) ∧
    ((inputs.take 10).any hasLine = false →
      probe_step inputs ls =
        { ls with
          st := { ls.st with snap :=
            { ls.st.snap with
              connected := false,
              status := "❌ No data - Upload sketch!" } },
          serOpen := false, phase := .discovering }) := by
  have htake := probeLoop_take 10 inputs
  have hiff := probeLoop_isSome_iff 10 inputs
  cases hp : probeLoop 10 inputs with
  | some l =>
    have hany : (inputs.take 10).any hasLine = true := by
      rw [← hiff, hp]
      rfl
    refine ⟨?_, ?_, ?_, ?_⟩
    · unfold probe_step
      rw [htake, hp]
    · unfold probe_step
      rw [hp]
      simp [hany]
    · intro _
      unfold probe_step
      rw [hp]
    · intro hc
      rw [hany] at hc
      cases hc
  | none =>
    have hany : (inputs.take 10).any hasLine = false := by
      rw [← hiff, hp]
      rfl
    refine ⟨?_, ?_, ?_, ?_⟩
    · unfold probe_step
      rw [htake, hp]
    · unfold probe_step
      rw [hp]
      simp [hany]
    · intro hc
      rw [hany] at hc
      cases hc
    · intro _
      unfold probe_step
      rw [hp]

/-- Witness of C7 at a poll trace with an empty poll, an empty line and a
nonempty line. -/
theorem C7_probe_liveness_witness :
    ((([none, some "", some "hi"] : List (Option String)).take 10).any hasLine = true) ∧
    (probe_step [none, some "", some "hi"] link_init).st.snap.connected = true :=
  ⟨by decide,
    ((C7_probe_liveness [none, some "", some "hi"] link_init).2.1).mpr (by decide)⟩

/-- C1 counterexample: between the first and the second field write of
line two, a concurrent reader of the snapshot sees temperature 30 from
line two next to humidity 20 from line one: an observable state equal to
neither the fully published line-one snapshot nor the fully published
line-two snapshot, so the update is not an atomic swap. -/
theorem C1_counterexample :
    ∃ s ∈ observableStates preState.snap (publishWrites "00:00:02" lineB 30 40),
      s.temperature = 30 ∧ s.humidity = 20 ∧
      s ≠ preState.snap ∧ s ≠ postState.snap := by decide

/-- C1 (amended): the snapshot update for a validated line is the listed
sequence of per-field writes; after the last write the snapshot equals the
published state, whose reading fields are exactly the fields of the line
just processed, but a reader may observe the intermediate states of the
sequence. -/
theorem C1_publish_after_last_write (now : String) (st : IngestState)
    (data : JsonObj) (t h : ℚ)
    (hcm : (data.status.isSome && data.msg.isSome) = false)
    (herr : data.error = none)
    (ht : data.temp = some t) (hh : data.hum = some h) :
    List.foldl (fun s f => f s) st.snap (publishWrites now data t h) =
      (processLine now st (.valid data)).snap ∧
    (processLine now st (.valid data)).snap.temperature = t ∧
    (processLine now st (.valid data)).snap.humidity = h ∧
    (processLine now st (.valid data)).snap.dust = data.dust.getD 0 ∧
    (processLine now st (.valid data)).snap.pressure = data.pressure.getD 0 ∧
    (processLine now st (.valid data)).snap.time = now := by
  cases htr : data.tracker with
  | some tr =>
    refine ⟨?_, ?_, ?_, ?_, ?_, ?_⟩ <;>
      simp [processLine, publishWrites, hcm, herr, ht, hh, htr]
  | none =>
    refine ⟨?_, ?_, ?_, ?_, ?_, ?_⟩ <;>
      simp [processLine, publishWrites, hcm, herr, ht, hh, htr]

/-- Witness of C1 at the two concrete lines of the interleaving example. -/
theorem C1_publish_after_last_write_witness :
    List.foldl (fun s f => f s) preState.snap (publishWrites "00:00:02" lineB 30 40) =
      postState.snap :=
  (C1_publish_after_last_write "00:00:02" preState lineB 30 40 (by decide) rfl rfl rfl).1

end SolarServer
